import Mathlib

/-!
Verification of the upload/orchestration layer of the automated mockups
generator (source: `src/web_app.py`).

The repository ships one source file, `web_app.py`.  The two core modules it
imports (`calculate_box_pos.calculate_parameters` and
`create_mockups.create_mockups`) are not part of the repository sources, so
they are modelled as parameters of the definitions below (their contracts are
taken from the specification where a claim needs them).

Python strings are embedded as Lean `String`s and most character work happens
on `String.data` (a `List Char`), so that every definition computes by kernel
reduction.  Python `int` is embedded as `Int`.  Python functions that can
raise are embedded as `Except String` / `Option` valued functions.
-/

/-! ## Python character and string primitives -/

/-- ASCII whitespace as recognised by Python's `str.strip` (space, tab,
newline, carriage return, vertical tab, form feed). -/
def pyIsSpace (c : Char) : Bool :=
  c.toNat = 32 || c.toNat = 9 || c.toNat = 10 || c.toNat = 13 ||
  c.toNat = 11 || c.toNat = 12

/-- Python `str.strip()` on a character list: drop whitespace from both
ends. -/
def pyStripChars (l : List Char) : List Char :=
  ((l.dropWhile pyIsSpace).reverse.dropWhile pyIsSpace).reverse

/-- Python `str.strip()`. -/
def pyStrip (s : String) : String :=
  String.mk (pyStripChars s.data)

/-- ASCII lower-casing of one character, as Python `str.lower` does on the
ASCII range (all file names and extensions handled here are ASCII). -/
def lowerChar (c : Char) : Char :=
  if 65 ≤ c.toNat ∧ c.toNat ≤ 90 then Char.ofNat (c.toNat + 32) else c

/-- Python `str.lower()` (ASCII range). -/
def lowerStr (s : String) : String :=
  String.mk (s.data.map lowerChar)

/-- Lexicographic comparison of code-point lists, the order Python uses to
compare strings. -/
def lexLe : List Nat → List Nat → Bool
  | [], _ => true
  | _ :: _, [] => false
  | a :: as, b :: bs => if a < b then true else if a = b then lexLe as bs else false

/-- The sort key of `sorted(..., key=str.lower)`: the code points of the
lower-cased string. -/
def lowerKey (s : String) : List Nat :=
  s.data.map (fun c => (lowerChar c).toNat)

/-- The comparison used by `sorted(outputs, key=str.lower)`: case-insensitive
lexicographic order on strings. -/
def lowerLe (a b : String) : Prop :=
  lexLe (lowerKey a) (lowerKey b) = true

instance : DecidableRel lowerLe := fun a b => by
  unfold lowerLe; infer_instance

theorem lexLe_total (a b : List Nat) : lexLe a b = true ∨ lexLe b a = true := by
  induction a generalizing b with
  | nil => left; rfl
  | cons x xs ih =>
    cases b with
    | nil => right; rfl
    | cons y ys =>
      rcases Nat.lt_trichotomy x y with h | h | h
      · left; simp [lexLe, h]
      · subst h
        rcases ih ys with h' | h'
        · left; simp [lexLe, h']
        · right; simp [lexLe, h']
      · right; simp [lexLe, h]

theorem lexLe_trans {a b c : List Nat} (h₁ : lexLe a b = true)
    (h₂ : lexLe b c = true) : lexLe a c = true := by
  induction a generalizing b c with
  | nil => rfl
  | cons x xs ih =>
    cases b with
    | nil => simp [lexLe] at h₁
    | cons y ys =>
      cases c with
      | nil => simp [lexLe] at h₂
      | cons z zs =>
        simp only [lexLe] at h₁ h₂ ⊢
        by_cases hxy : x < y
        · by_cases hyz : y < z
          · simp [Nat.lt_trans hxy hyz]
          · simp [hxy] at h₁
            by_cases hyz' : y = z
            · subst hyz'; simp [hxy]
            · simp [hyz, hyz'] at h₂
        · by_cases hxy' : x = y
          · subst hxy'
            simp [hxy] at h₁
            by_cases hxz : x < z
            · simp [hxz]
            · by_cases hxz' : x = z
              · subst hxz'
                simp [hxz] at h₂ ⊢
                exact ih h₁ h₂
              · simp [hxz, hxz'] at h₂
          · simp [hxy, hxy'] at h₁

instance : IsTotal String lowerLe :=
  ⟨fun a b => lexLe_total (lowerKey a) (lowerKey b)⟩

instance : IsTrans String lowerLe :=
  ⟨fun _ _ _ h₁ h₂ => lexLe_trans h₁ h₂⟩

/-! ## Python `int(·, 16)` and `int(·)` -/

/-- Value of a hexadecimal digit character, if it is one. -/
def hexVal? (c : Char) : Option Nat :=
  if 48 ≤ c.toNat ∧ c.toNat ≤ 57 then some (c.toNat - 48)
  else if 97 ≤ c.toNat ∧ c.toNat ≤ 102 then some (c.toNat - 87)
  else if 65 ≤ c.toNat ∧ c.toNat ≤ 70 then some (c.toNat - 55)
  else none

/-- Value of a decimal digit character, if it is one. -/
def decVal? (c : Char) : Option Nat :=
  if 48 ≤ c.toNat ∧ c.toNat ≤ 57 then some (c.toNat - 48) else none

/-- Digit run of a Python integer literal: digits of the given kind with
single underscores allowed between digits.  `acc` is the value read so far. -/
def digitsLoop (val? : Char → Option Nat) (base : Nat) (acc : Nat) :
    List Char → Option Nat
  | [] => some acc
  | c :: rest =>
    if c = '_' then
      match rest with
      | [] => none
      | d :: rest' =>
        match val? d with
        | some v => digitsLoop val? base (base * acc + v) rest'
        | none => none
    else
      match val? c with
      | some v => digitsLoop val? base (base * acc + v) rest
      | none => none

/-- Nonempty digit run (no leading underscore). -/
def digitsRun (val? : Char → Option Nat) (base : Nat) : List Char → Option Nat
  | [] => none
  | c :: rest =>
    match val? c with
    | some v => digitsLoop val? base v rest
    | none => none

/-- Python `int(s, 16)`: optional surrounding whitespace, optional sign,
optional `0x`/`0X` prefix (one underscore allowed right after it), then
hexadecimal digits with single underscores between digits. -/
def pyIntHex (s : String) : Option Int :=
  let l := pyStripChars s.data
  let sign : Int :=
    match l with
    | c :: _ => if c = '-' then -1 else 1
    | [] => 1
  let l1 :=
    match l with
    | c :: rest => if c = '+' ∨ c = '-' then rest else c :: rest
    | [] => []
  let l2 :=
    match l1 with
    | c :: d :: rest =>
      if c = '0' ∧ (d = 'x' ∨ d = 'X') then
        match rest with
        | e :: r => if e = '_' then r else e :: r
        | [] => []
      else c :: d :: rest
    | other => other
  (digitsRun hexVal? 16 l2).map (fun n => sign * (n : Int))

/-- Python `int(s)` (base 10): optional surrounding whitespace, optional
sign, then decimal digits with single underscores between digits (no base
prefix is accepted). -/
def pyIntDec (s : String) : Option Int :=
  let l := pyStripChars s.data
  let sign : Int :=
    match l with
    | c :: _ => if c = '-' then -1 else 1
    | [] => 1
  let l1 :=
    match l with
    | c :: rest => if c = '+' ∨ c = '-' then rest else c :: rest
    | [] => []
  (digitsRun decVal? 10 l1).map (fun n => sign * (n : Int))

/-! ## `parse_color` (web_app.py lines 26-40) -/

/-- The four form fields read by `parse_color`; `form.get(k)` returns
`none` when the field is absent. -/
structure FormData where
  hex_color : Option String
  r : Option String
  g : Option String
  b : Option String
deriving DecidableEq

/-- `int(form.get(k))`: a missing field is `None` and raises `TypeError`;
a present field is parsed as a base-10 integer and raises `ValueError` on
failure. -/
def pyIntOfField (o : Option String) : Except String Int :=
  match o with
  | none => Except.error "int() argument must be a string, not NoneType"
  | some s =>
    match pyIntDec s with
    | some n => Except.ok n
    | none => Except.error ("invalid literal for int() with base 10: " ++ s)

/-- Two-character slice of a character list starting at index `i`, as used
for `hex_color[0:2]`, `[2:4]`, `[4:6]`. -/
def slice2 (l : List Char) (i : Nat) : String :=
  String.mk ((l.drop i).take 2)

/-- `int(hex_color[i:i+2], 16)` with the `ValueError` it raises on
failure. -/
def hexPairField (l : List Char) (i : Nat) : Except String Int :=
  match pyIntHex (slice2 l i) with
  | some n => Except.ok n
  | none => Except.error ("invalid literal for int() with base 16: " ++ slice2 l i)

/-- The hex branch of `parse_color` (web_app.py lines 28-35), applied to the
stripped characters of the hex field: `lstrip("#")` removes every leading
`'#'`, the length must be exactly 6, and the three 2-character slices go
through `int(·, 16)`. -/
def parse_hex (hex_color : List Char) : Except String (Int × Int × Int) :=
  if (hex_color.dropWhile (fun c => c = '#')).length ≠ 6 then
    Except.error "Hex color must have 6 characters."
  else
    match hexPairField (hex_color.dropWhile (fun c => c = '#')) 0 with
    | Except.error e => Except.error e
    | Except.ok r =>
      match hexPairField (hex_color.dropWhile (fun c => c = '#')) 2 with
      | Except.error e => Except.error e
      | Except.ok g =>
        match hexPairField (hex_color.dropWhile (fun c => c = '#')) 4 with
        | Except.error e => Except.error e
        | Except.ok b => Except.ok (r, g, b)

/-- The rgb branch of `parse_color` (web_app.py lines 37-40): three
`int(form.get(k))` conversions, without any range check. -/
def parse_rgb (form : FormData) : Except String (Int × Int × Int) :=
  match pyIntOfField form.r with
  | Except.error e => Except.error e
  | Except.ok r =>
    match pyIntOfField form.g with
    | Except.error e => Except.error e
    | Except.ok g =>
      match pyIntOfField form.b with
      | Except.error e => Except.error e
      | Except.ok b => Except.ok (r, g, b)

/-- Embedding of `parse_color` (web_app.py lines 26-40).  The raised
exceptions become `Except.error`.  Notes on fidelity: `form.get("hex_color")
or ""` yields `""` both for a missing field and an empty one, and `if
hex_color:` is string truthiness, i.e. non-emptiness of the stripped
value. -/
def parse_color (form : FormData) : Except String (Int × Int × Int) :=
  if pyStripChars (form.hex_color.getD "").data ≠ [] then
    parse_hex (pyStripChars (form.hex_color.getD "").data)
  else
    parse_rgb form

/-! ## `allowed_file` (web_app.py lines 16-23) -/

/-- The basename of a path: everything after the last `'/'`
(`os.path` separator handling inside `splitext`). -/
def afterLastSlash (l : List Char) : List Char :=
  (l.reverse.takeWhile (fun c => c ≠ '/')).reverse

/-- Split a basename at its last `'.'`: returns the part before the dot and
the suffix starting at the dot, or `none` when there is no dot. -/
def splitLastDot : List Char → Option (List Char × List Char)
  | [] => none
  | c :: rest =>
    match splitLastDot rest with
    | some (p, e) => some (c :: p, e)
    | none => if c = '.' then some ([], c :: rest) else none

/-- The extension part of `os.path.splitext(p)` (posix rules): the suffix
from the last dot of the basename, unless every character before that dot is
itself a dot (leading dots never start an extension). -/
def splitextExt (p : String) : String :=
  let base := afterLastSlash p.data
  match splitLastDot base with
  | none => ""
  | some (pre, ext) => if pre.all (fun c => c = '.') then "" else String.mk ext

/-- `ALLOWED_EXTENSIONS` (web_app.py line 16). -/
def ALLOWED_EXTENSIONS : List String := [".png", ".jpg", ".jpeg"]

/-- Embedding of `allowed_file` (web_app.py lines 19-23): a falsy (empty)
filename is refused, otherwise the lower-cased `splitext` extension must be
in the allow-list. -/
def allowed_file (filename : String) : Bool :=
  if filename = "" then false
  else ALLOWED_EXTENSIONS.contains (lowerStr (splitextExt filename))

/-! ## Filesystem model

`web_app.py` touches the filesystem through `os.makedirs`, `FileStorage.save`
and `os.listdir`.  The state is a list of directories and an association list
from file paths to contents; `os.path.join(d, name)` is embedded as
`d ++ "/" ++ name`, which coincides with Python for every name reachable here
(directory-listing entries and sanitized upload names never begin with a
separator). -/

/-- Insert-or-replace in an association list, the update semantics of both a
Python dict assignment and of saving a file at an existing path. -/
def dictInsert {α : Type} (k : String) (v : α) :
    List (String × α) → List (String × α)
  | [] => [(k, v)]
  | (k', v') :: rest =>
    if k' = k then (k, v) :: rest else (k', v') :: dictInsert k v rest

/-- The filesystem: known directories and files (path with contents). -/
structure FS where
  dirs : List String
  files : List (String × String)
deriving DecidableEq

/-- `os.makedirs(d, exist_ok=True)`. -/
def FS.makedirs (fs : FS) (d : String) : FS :=
  if fs.dirs.contains d then fs else { fs with dirs := fs.dirs ++ [d] }

/-- `f.save(path)`: write a file, overwriting any previous one at the same
path. -/
def FS.save (fs : FS) (path content : String) : FS :=
  { fs with files := dictInsert path content fs.files }

/-- The entry name a path or directory contributes to `os.listdir d`:
its last component when it lies directly under `d`. -/
def childName (d p : String) : Option String :=
  if (d ++ "/").data.isPrefixOf p.data then
    let rest := p.data.drop (d ++ "/").data.length
    if rest ≠ [] ∧ ¬ rest.contains '/' then some (String.mk rest) else none
  else none

/-- `os.listdir d`: names of files and subdirectories directly under `d`. -/
def FS.listdir (fs : FS) (d : String) : List String :=
  (fs.files.map Prod.fst ++ fs.dirs).filterMap (childName d)

/-! ## `save_files` (web_app.py lines 189-204) -/

/-- An uploaded file.  A Werkzeug `FileStorage` is falsy exactly when its
`filename` is empty, so `if not f or not f.filename` collapses to a test on
the filename. -/
structure Upload where
  filename : String
  content : String
deriving DecidableEq

/-- Embedding of the nested `save_files(files, target_dir)` of the POST
handler: each upload with a non-empty filename is sanitized with
`secure_filename` (passed here as the parameter `sanitize`, since Werkzeug is
an external library) and saved when the sanitized name passes
`allowed_file`; returns the filesystem and the `saved_any` flag. -/
def save_files_loop (sanitize : String → String) (target_dir : String)
    (fs : FS) (saved_any : Bool) : List Upload → FS × Bool
  | [] => (fs, saved_any)
  | f :: rest =>
    if f.filename = "" then
      save_files_loop sanitize target_dir fs saved_any rest
    else
      if allowed_file (sanitize f.filename) = false then
        save_files_loop sanitize target_dir fs saved_any rest
      else
        save_files_loop sanitize target_dir
          (fs.save (target_dir ++ "/" ++ sanitize f.filename) f.content) true rest

/-- The entry point of the loop above: `saved_any` starts out `False`. -/
def save_files (sanitize : String → String) (files : List Upload)
    (target_dir : String) (fs : FS) : FS × Bool :=
  save_files_loop sanitize target_dir fs false files

/-! ## `build_parameters` (web_app.py lines 43-57) -/

/-- Modelled from the spec: the result of `calculate_parameters` (module
`calculate_box_pos`, not under `src/`).  Per the spec the detector returns a
bounding box with the box's pixel extents and rotation, or signals "not
found" with falsy fields; `web_app.py` destructures it as `(bbox, height,
width, rotation)`.  The bounding box is carried opaquely as four integers
(`none` = falsy `None`), and the rotation angle is carried opaquely (its
value is never inspected by this layer, so its numeric type is irrelevant;
it is embedded as `Int`). -/
structure DetectResult where
  bbox : Option (Int × Int × Int × Int)
  height : Int
  width : Int
  rotation : Int
deriving DecidableEq

/-- The truthiness test `if bbox and height and width:` of web_app.py line
50: `None` and `0` are falsy. -/
def detectTruthy (r : DetectResult) : Prop :=
  r.bbox.isSome = true ∧ r.height ≠ 0 ∧ r.width ≠ 0

instance (r : DetectResult) : Decidable (detectTruthy r) := by
  unfold detectTruthy; infer_instance

/-- The dict stored per filename (web_app.py lines 51-56). -/
structure Params where
  bbox : Option (Int × Int × Int × Int)
  height : Int
  width : Int
  rotation : Int
deriving DecidableEq

/-- The loop of `build_parameters`, instrumented with the list of image
paths on which `calculate_parameters` is invoked.  `detect` stands for
`calculate_parameters(·, target_color)`; `acc` is the dict built so far and
`calls` the invocations made so far. -/
def build_parameters_go (detect : String → DetectResult) (box_dir : String)
    (acc : List (String × Params)) (calls : List String) :
    List String → List (String × Params) × List String
  | [] => (acc, calls)
  | filename :: rest =>
    if allowed_file filename = false then
      build_parameters_go detect box_dir acc calls rest
    else
      let image_path := box_dir ++ "/" ++ filename
      let r := detect image_path
      if detectTruthy r then
        build_parameters_go detect box_dir
          (dictInsert filename ⟨r.bbox, r.height, r.width, r.rotation⟩ acc)
          (calls ++ [image_path]) rest
      else
        build_parameters_go detect box_dir acc (calls ++ [image_path]) rest

/-- Embedding of `build_parameters` (web_app.py lines 43-57), parameterized
by the detector and by the listing of the box-mockup directory. -/
def build_parameters (detect : String → DetectResult) (box_dir : String)
    (listing : List String) : List (String × Params) :=
  (build_parameters_go detect box_dir [] [] listing).1

/-- The image paths on which `build_parameters` invokes
`calculate_parameters`. -/
def build_parameters_calls (detect : String → DetectResult) (box_dir : String)
    (listing : List String) : List String :=
  (build_parameters_go detect box_dir [] [] listing).2

/-! ## The POST handler `index` (web_app.py lines 152-252) -/

/-- `RUNS_DIR` relative to the application directory. -/
def RUNS_DIR : String := "runs"

def jobDirOf (job_id : String) : String := RUNS_DIR ++ "/" ++ job_id

def boxDirOf (job_id : String) : String := jobDirOf job_id ++ "/box_mockups"

def mockupDirOf (job_id : String) : String := jobDirOf job_id ++ "/mockups"

def designDirOf (job_id : String) : String := jobDirOf job_id ++ "/designs"

def outputDirOf (job_id : String) : String := jobDirOf job_id ++ "/output"

/-- What `render_template_string(TEMPLATE, ...)` receives. -/
structure Rendered where
  error : Option String
  outputs : Option (List String)
  job_id : Option String
deriving DecidableEq

/-- An HTTP response: the rendered page and the status code. -/
structure Resp where
  page : Rendered
  status : Nat
deriving DecidableEq

/-- An error page returned with status 400. -/
def errorResp (msg : String) : Resp :=
  ⟨⟨some msg, none, none⟩, 400⟩

def UPLOAD_ERR : String :=
  "Please upload at least one file for designs, mockups, and box mockups."

def NO_VALID_FILES_ERR : String :=
  "No valid image files found. Use PNG or JPG files."

def NO_BOXES_ERR : String :=
  "Could not detect any target boxes in the box mockups."

def NO_OUTPUTS_ERR : String :=
  "No output images were generated. Check that filenames match between mockups and box mockups."

/-- web_app.py lines 184-204: create the four job directories and save the
three groups of uploads (designs, then mockups, then box mockups); returns
the filesystem and the three `saved_any` flags. -/
def fsSetup (sanitize : String → String)
    (design_files mockup_files box_files : List Upload)
    (job_id : String) (fs : FS) : FS × Bool × Bool × Bool :=
  let fs0 := ((((fs.makedirs (boxDirOf job_id)).makedirs
      (mockupDirOf job_id)).makedirs (designDirOf job_id)).makedirs
      (outputDirOf job_id))
  let sd := save_files sanitize design_files (designDirOf job_id) fs0
  let sm := save_files sanitize mockup_files (mockupDirOf job_id) sd.1
  let sb := save_files sanitize box_files (boxDirOf job_id) sm.1
  (sb.1, sd.2, sm.2, sb.2)

/-- The parameters dict the handler computes after the uploads are saved
(web_app.py line 217): `build_parameters` run on the listing of the job's
box-mockup directory. -/
def handlerParams (sanitize : String → String)
    (design_files mockup_files box_files : List Upload) (job_id : String)
    (calculate_parameters : String → Int × Int × Int → DetectResult)
    (target_color : Int × Int × Int) (fs : FS) : List (String × Params) :=
  build_parameters (fun p => calculate_parameters p target_color)
    (boxDirOf job_id)
    ((fsSetup sanitize design_files mockup_files box_files job_id fs).1.listdir
      (boxDirOf job_id))

/-- The filesystem after `create_mockups` has run (web_app.py line 229). -/
def handlerFsAfterCore (sanitize : String → String)
    (design_files mockup_files box_files : List Upload) (job_id : String)
    (calculate_parameters : String → Int × Int × Int → DetectResult)
    (create_mockups : String → String → List (String × Params) → String → FS → FS)
    (target_color : Int × Int × Int) (fs : FS) : FS :=
  create_mockups (designDirOf job_id) (mockupDirOf job_id)
    (handlerParams sanitize design_files mockup_files box_files job_id
      calculate_parameters target_color fs)
    (outputDirOf job_id)
    (fsSetup sanitize design_files mockup_files box_files job_id fs).1

/-- The names in the job's output directory that pass the image allow-list,
after `create_mockups` has run (web_app.py lines 231-234, before sorting). -/
def handlerOutputsOnDisk (sanitize : String → String)
    (design_files mockup_files box_files : List Upload) (job_id : String)
    (calculate_parameters : String → Int × Int × Int → DetectResult)
    (create_mockups : String → String → List (String × Params) → String → FS → FS)
    (target_color : Int × Int × Int) (fs : FS) : List String :=
  ((handlerFsAfterCore sanitize design_files mockup_files box_files job_id
      calculate_parameters create_mockups target_color fs).listdir
    (outputDirOf job_id)).filter (fun n => allowed_file n)

/-- Embedding of the POST branch of `index` (web_app.py lines 157-252).
External collaborators are parameters: `sanitize` is Werkzeug's
`secure_filename`, `calculate_parameters` the detector and
`create_mockups` the compositor batch (its filesystem effect).  Returns the
response together with the final filesystem state. -/
def index_post (form : FormData)
    (design_files mockup_files box_files : List Upload)
    (sanitize : String → String) (job_id : String)
    (calculate_parameters : String → Int × Int × Int → DetectResult)
    (create_mockups : String → String → List (String × Params) → String → FS → FS)
    (fs : FS) : Resp × FS :=
  match parse_color form with
  | Except.error msg => (errorResp msg, fs)
  | Except.ok target_color =>
    if box_files.isEmpty || mockup_files.isEmpty || design_files.isEmpty then
      (errorResp UPLOAD_ERR, fs)
    else
      if ((fsSetup sanitize design_files mockup_files box_files job_id fs).2.1 &&
          (fsSetup sanitize design_files mockup_files box_files job_id fs).2.2.1 &&
          (fsSetup sanitize design_files mockup_files box_files job_id fs).2.2.2) = false then
        (errorResp NO_VALID_FILES_ERR,
         (fsSetup sanitize design_files mockup_files box_files job_id fs).1)
      else
        if (handlerParams sanitize design_files mockup_files box_files job_id
            calculate_parameters target_color fs).isEmpty then
          (errorResp NO_BOXES_ERR,
           (fsSetup sanitize design_files mockup_files box_files job_id fs).1)
        else
          if (List.insertionSort lowerLe
              (handlerOutputsOnDisk sanitize design_files mockup_files box_files
                job_id calculate_parameters create_mockups target_color fs)).isEmpty then
            (errorResp NO_OUTPUTS_ERR,
             handlerFsAfterCore sanitize design_files mockup_files box_files job_id
               calculate_parameters create_mockups target_color fs)
          else
            (⟨⟨none,
               some (List.insertionSort lowerLe
                 (handlerOutputsOnDisk sanitize design_files mockup_files box_files
                   job_id calculate_parameters create_mockups target_color fs)),
               some job_id⟩, 200⟩,
             handlerFsAfterCore sanitize design_files mockup_files box_files job_id
               calculate_parameters create_mockups target_color fs)

/-! ## Spec-side definition for the claimed hex validity

The claim about the hex branch says: the string, after removing an
*optional single leading* `'#'`, must consist of exactly six hexadecimal
characters.  This predicate follows those words (only), to be compared with
what `parse_color` actually does. -/

/-- Written from the claim's words: at most one leading `'#'` is removed and
the remainder must be exactly six hexadecimal characters. -/
def specHexValid (s : String) : Bool :=
  let t := match s.data with
    | c :: rest => if c = '#' then rest else c :: rest
    | [] => []
  t.length = 6 && t.all (fun c => (hexVal? c).isSome)

/-! ## Lemmas about `dictInsert` and `build_parameters` -/

theorem mem_dictInsert {α : Type} {k : String} {v : α}
    {m : List (String × α)} {k' : String} {v' : α}
    (h : (k', v') ∈ dictInsert k v m) : (k' = k ∧ v' = v) ∨ (k', v') ∈ m := by
  induction m with
  | nil =>
    simp only [dictInsert, List.mem_singleton, Prod.mk.injEq] at h
    exact Or.inl h
  | cons e rest ih =>
    obtain ⟨ek, ev⟩ := e
    simp only [dictInsert] at h
    by_cases he : ek = k
    · simp only [he, if_true, List.mem_cons, Prod.mk.injEq] at h
      rcases h with h | h
      · exact Or.inl h
      · exact Or.inr (List.mem_cons_of_mem _ h)
    · simp only [he, if_false, List.mem_cons] at h
      rcases h with h | h
      · exact Or.inr (by simp [h])
      · rcases ih h with h' | h'
        · exact Or.inl h'
        · exact Or.inr (List.mem_cons_of_mem _ h')

/-- Every entry of the parameter dict built by the loop either was in the
accumulator already or records a successful (truthy) detection at its own
image path. -/
theorem mem_build_parameters_go {detect : String → DetectResult}
    {box_dir : String} {listing : List String}
    {acc : List (String × Params)} {calls : List String}
    {nm : String} {ps : Params}
    (h : (nm, ps) ∈ (build_parameters_go detect box_dir acc calls listing).1) :
    (nm, ps) ∈ acc ∨
      (allowed_file nm = true ∧ nm ∈ listing ∧
        detectTruthy (detect (box_dir ++ "/" ++ nm)) ∧
        ps = ⟨(detect (box_dir ++ "/" ++ nm)).bbox,
              (detect (box_dir ++ "/" ++ nm)).height,
              (detect (box_dir ++ "/" ++ nm)).width,
              (detect (box_dir ++ "/" ++ nm)).rotation⟩) := by
  induction listing generalizing acc calls with
  | nil => exact Or.inl h
  | cons f rest ih =>
    simp only [build_parameters_go] at h
    by_cases ha : allowed_file f = false
    · rw [if_pos ha] at h
      rcases ih h with h' | ⟨h1, h2, h3, h4⟩
      · exact Or.inl h'
      · exact Or.inr ⟨h1, List.mem_cons_of_mem _ h2, h3, h4⟩
    · rw [if_neg ha] at h
      by_cases ht : detectTruthy (detect (box_dir ++ "/" ++ f))
      · rw [if_pos ht] at h
        rcases ih h with h' | ⟨h1, h2, h3, h4⟩
        · rcases mem_dictInsert h' with ⟨hk, hv⟩ | hacc
          · subst hk
            exact Or.inr ⟨Bool.not_eq_false _ ▸ ha, List.mem_cons_self _ _, ht, hv⟩
          · exact Or.inl hacc
        · exact Or.inr ⟨h1, List.mem_cons_of_mem _ h2, h3, h4⟩
      · rw [if_neg ht] at h
        rcases ih h with h' | ⟨h1, h2, h3, h4⟩
        · exact Or.inl h'
        · exact Or.inr ⟨h1, List.mem_cons_of_mem _ h2, h3, h4⟩

/-- The dict built by the loop does not depend on the invocation trace
accumulator. -/
theorem build_parameters_go_fst_calls_irrel (detect : String → DetectResult)
    (box_dir : String) (listing : List String)
    (acc : List (String × Params)) (calls calls' : List String) :
    (build_parameters_go detect box_dir acc calls listing).1 =
      (build_parameters_go detect box_dir acc calls' listing).1 := by
  induction listing generalizing acc calls calls' with
  | nil => rfl
  | cons f rest ih =>
    simp only [build_parameters_go]
    by_cases ha : allowed_file f = false
    · rw [if_pos ha, if_pos ha]; exact ih _ _ _
    · rw [if_neg ha, if_neg ha]
      by_cases ht : detectTruthy (detect (box_dir ++ "/" ++ f))
      · rw [if_pos ht, if_pos ht]; exact ih _ _ _
      · rw [if_neg ht, if_neg ht]; exact ih _ _ _

/-- The loop processes an appended listing in two stages. -/
theorem build_parameters_go_append (detect : String → DetectResult)
    (box_dir : String) (acc : List (String × Params)) (calls : List String)
    (xs ys : List String) :
    build_parameters_go detect box_dir acc calls (xs ++ ys) =
      build_parameters_go detect box_dir
        (build_parameters_go detect box_dir acc calls xs).1
        (build_parameters_go detect box_dir acc calls xs).2 ys := by
  induction xs generalizing acc calls with
  | nil => rfl
  | cons f rest ih =>
    simp only [List.cons_append, build_parameters_go]
    by_cases ha : allowed_file f = false
    · rw [if_pos ha, if_pos ha]; exact ih _ _
    · rw [if_neg ha, if_neg ha]
      by_cases ht : detectTruthy (detect (box_dir ++ "/" ++ f))
      · rw [if_pos ht, if_pos ht]; exact ih _ _
      · rw [if_neg ht, if_neg ht]; exact ih _ _

/-- The invocation trace of the loop: exactly one invocation per allowed
filename of the listing, in order. -/
theorem build_parameters_go_snd (detect : String → DetectResult)
    (box_dir : String) (listing : List String)
    (acc : List (String × Params)) (calls : List String) :
    (build_parameters_go detect box_dir acc calls listing).2 =
      calls ++ (listing.filter (fun f => allowed_file f)).map
        (fun f => box_dir ++ "/" ++ f) := by
  induction listing generalizing acc calls with
  | nil => simp [build_parameters_go]
  | cons f rest ih =>
    simp only [build_parameters_go, List.filter_cons]
    by_cases ha : allowed_file f = false
    · rw [if_pos ha]
      simp only [ha, Bool.false_eq_true, if_false]
      exact ih _ _
    · rw [if_neg ha]
      have ha' : allowed_file f = true := Bool.not_eq_false _ ▸ ha
      simp only [ha', if_true, List.map_cons]
      by_cases ht : detectTruthy (detect (box_dir ++ "/" ++ f))
      · rw [if_pos ht, ih]
        simp
      · rw [if_neg ht, ih]
        simp

/-- Concatenating `box_dir ++ "/"` in front of a filename is injective in
the filename. -/
theorem path_append_injective (box_dir : String) :
    Function.Injective (fun f : String => box_dir ++ "/" ++ f) := by
  intro a b h
  have h' : (box_dir ++ "/").data ++ a.data = (box_dir ++ "/").data ++ b.data := by
    simpa [String.data_append] using congrArg String.data h
  exact String.ext (List.append_cancel_left h')

/-! ## Concrete instances used by the witnesses -/

/-- A detector that always succeeds with a 7 x 5 box. -/
def detectW : String → DetectResult := fun _ => ⟨some (1, 2, 3, 4), 5, 7, 0⟩

/-- A detector that always fails (falsy bounding box). -/
def detectF : String → DetectResult := fun _ => ⟨none, 5, 7, 0⟩

/-! ## C1 -/

/-- C1: for every listing of the box-mockup directory and every possible
detector result, every Geometry entry stored in the mapping returned by
`build_parameters` has `width > 0` and `height > 0`; a failed detection
contributes no entry (every entry records a truthy detection at its own
path, so by contraposition a falsy detection for a file leaves that file
out of the mapping), and a zero-sized Geometry is never recorded.  The
detector is not part of `src/`; per the spec its height/width are pixel
extents, so the hypothesis `hdet` restricts it to nonnegative values. -/
theorem build_parameters_entries_positive
    (detect : String → DetectResult) (box_dir : String) (listing : List String)
    (hdet : ∀ p, 0 ≤ (detect p).height ∧ 0 ≤ (detect p).width)
    (nm : String) (ps : Params)
    (hmem : (nm, ps) ∈ build_parameters detect box_dir listing) :
    0 < ps.width ∧ 0 < ps.height ∧
      detectTruthy (detect (box_dir ++ "/" ++ nm)) := by
  rcases mem_build_parameters_go hmem with h | ⟨_, _, ht, hps⟩
  · simp at h
  · obtain ⟨hb, hh, hw⟩ := ht
    subst hps
    exact ⟨lt_of_le_of_ne (hdet _).2 (Ne.symm hw),
           lt_of_le_of_ne (hdet _).1 (Ne.symm hh), hb, hh, hw⟩

/-- Witness for C1: a concrete nonnegative detector, listing and entry. -/
theorem build_parameters_entries_positive_witness :
    0 < (Params.mk (some (1, 2, 3, 4)) 5 7 0).width ∧
    0 < (Params.mk (some (1, 2, 3, 4)) 5 7 0).height ∧
    detectTruthy (detectW ("box" ++ "/" ++ "a.png")) :=
  build_parameters_entries_positive detectW "box" ["a.png"]
    (fun _ => ⟨by show (0 : Int) ≤ 5; decide, by show (0 : Int) ≤ 7; decide⟩)
    "a.png" ⟨some (1, 2, 3, 4), 5, 7, 0⟩ (by decide)

/-! ## C4 -/

/-- C4: when the detector signals a failed detection for a box-mockup file
(falsy bbox, height or width), `build_parameters` skips that file: the
mapping is the one computed from the listing without that file (the loop
continues with the remaining files; the embedding is total, so no exception
is raised), and no entry for that file appears. -/
theorem build_parameters_skips_failed
    (detect : String → DetectResult) (box_dir f : String)
    (l₁ l₂ : List String)
    (hallow : allowed_file f = true)
    (hfail : ¬ detectTruthy (detect (box_dir ++ "/" ++ f))) :
    build_parameters detect box_dir (l₁ ++ f :: l₂) =
      build_parameters detect box_dir (l₁ ++ l₂) ∧
    ∀ ps : Params, (f, ps) ∉ build_parameters detect box_dir (l₁ ++ f :: l₂) := by
  constructor
  · unfold build_parameters
    rw [build_parameters_go_append detect box_dir [] [] l₁ (f :: l₂),
        build_parameters_go_append detect box_dir [] [] l₁ l₂]
    simp only [build_parameters_go]
    rw [if_neg (by simp [hallow]), if_neg hfail]
    exact build_parameters_go_fst_calls_irrel _ _ _ _ _ _
  · intro ps hmem
    rcases mem_build_parameters_go hmem with h | ⟨_, _, ht, _⟩
    · simp at h
    · exact hfail ht

/-- Witness for C4 at a concrete failing detector and listing. -/
theorem build_parameters_skips_failed_witness :
    build_parameters detectF "box" (["x.png"] ++ "a.png" :: ["y.png"]) =
      build_parameters detectF "box" (["x.png"] ++ ["y.png"]) ∧
    ∀ ps : Params,
      ("a.png", ps) ∉ build_parameters detectF "box" (["x.png"] ++ "a.png" :: ["y.png"]) :=
  build_parameters_skips_failed detectF "box" "a.png" ["x.png"] ["y.png"]
    (by decide) (by decide)

/-! ## C7 -/

/-- C7: `build_parameters` invokes `calculate_parameters` exactly once per
allowed filename of the listing (its trace of invocations is the allowed
sublist, mapped to image paths), never invokes it for a filename whose
extension is not in the allow-list, and — for a directory listing, whose
entries are distinct — makes exactly one invocation per allowed
filename. -/
theorem build_parameters_calls_once_per_allowed
    (detect : String → DetectResult) (box_dir : String) (listing : List String) :
    build_parameters_calls detect box_dir listing =
      (listing.filter (fun f => allowed_file f)).map (fun f => box_dir ++ "/" ++ f) ∧
    (∀ f : String, allowed_file f = false →
      (box_dir ++ "/" ++ f) ∉ build_parameters_calls detect box_dir listing) ∧
    (listing.Nodup → ∀ f ∈ listing, allowed_file f = true →
      (build_parameters_calls detect box_dir listing).count (box_dir ++ "/" ++ f) = 1) := by
  have hcalls : build_parameters_calls detect box_dir listing =
      (listing.filter (fun f => allowed_file f)).map (fun f => box_dir ++ "/" ++ f) := by
    unfold build_parameters_calls
    rw [build_parameters_go_snd]
    simp
  refine ⟨hcalls, ?_, ?_⟩
  · intro f hf hmem
    rw [hcalls] at hmem
    rcases List.mem_map.mp hmem with ⟨g, hg, hgf⟩
    have : g = f := path_append_injective box_dir hgf
    subst this
    rw [List.mem_filter] at hg
    rw [hg.2] at hf
    exact Bool.true_eq_false.mp hf
  · intro hnd f hfl hfa
    rw [hcalls,
        List.count_map_of_injective _ _ (path_append_injective box_dir),
        List.count_filter hfa]
    exact List.count_eq_one_of_mem hnd hfl

/-- Witness for C7 at a concrete listing with one allowed and one refused
filename. -/
theorem build_parameters_calls_once_per_allowed_witness :
    (build_parameters_calls detectW "box" ["a.png", "b.txt"]).count
        ("box" ++ "/" ++ "a.png") = 1 ∧
    ("box" ++ "/" ++ "b.txt") ∉ build_parameters_calls detectW "box" ["a.png", "b.txt"] :=
  ⟨(build_parameters_calls_once_per_allowed detectW "box" ["a.png", "b.txt"]).2.2
      (by decide) "a.png" (by decide) (by decide),
   (build_parameters_calls_once_per_allowed detectW "box" ["a.png", "b.txt"]).2.1
      "b.txt" (by decide)⟩

/-! ## C2 -/

/-- C2 (code bug): with an empty hex field and `r = "300"` (out of the 0-255
range the form's own `min`/`max` attributes and the spec prescribe),
`parse_color` does not raise: it returns the out-of-range triple
`(300, 0, 0)` to the caller — the rgb branch performs no range check. -/
theorem parse_color_accepts_out_of_range :
    parse_color ⟨some "", some "300", some "0", some "0"⟩ = Except.ok (300, 0, 0) ∧
    ¬ ((300 : Int) ≤ 255) :=
  ⟨rfl, by decide⟩

/-! ## C9 -/

/-- C9: two-run noninterference of the color parser — two forms with the
same hex field that is non-empty (in the sense the code tests it: non-empty
after `strip()`) parse identically, whatever their `r`, `g`, `b` fields
are: the hex branch never reads them. -/
theorem parse_color_hex_noninterference (f₁ f₂ : FormData)
    (hhex : f₁.hex_color = f₂.hex_color)
    (hne : pyStripChars (f₁.hex_color.getD "").data ≠ []) :
    parse_color f₁ = parse_color f₂ := by
  have hne₂ : pyStripChars (f₂.hex_color.getD "").data ≠ [] := hhex ▸ hne
  unfold parse_color
  rw [hhex]
  simp only [if_pos hne₂]

/-- Witness for C9: same hex value, different rgb fields. -/
theorem parse_color_hex_noninterference_witness :
    parse_color ⟨some "#ff0000", some "0", some "0", some "0"⟩ =
      parse_color ⟨some "#ff0000", some "99", some "1", some "2"⟩ :=
  parse_color_hex_noninterference
    ⟨some "#ff0000", some "0", some "0", some "0"⟩
    ⟨some "#ff0000", some "99", some "1", some "2"⟩ rfl (by decide)

/-! ## C6 -/

/-- Unfolding of the save loop: it saves exactly the files that pass the
filename test, in order, and the flag records whether any did. -/
theorem save_files_loop_eq (sanitize : String → String) (target_dir : String)
    (files : List Upload) (fs : FS) (b : Bool) :
    save_files_loop sanitize target_dir fs b files =
      ((files.filter fun f => if f.filename = "" then false
          else allowed_file (sanitize f.filename)).foldl
        (fun a f => a.save (target_dir ++ "/" ++ sanitize f.filename) f.content) fs,
       b || !(files.filter fun f => if f.filename = "" then false
          else allowed_file (sanitize f.filename)).isEmpty) := by
  induction files generalizing fs b with
  | nil => simp [save_files_loop]
  | cons f rest ih =>
    simp only [save_files_loop, List.filter_cons]
    by_cases h0 : f.filename = ""
    · have hp : (if f.filename = "" then false
          else allowed_file (sanitize f.filename)) = false := by simp [h0]
      rw [if_pos h0, hp]
      simp only [Bool.false_eq_true, if_false]
      rw [ih]
    · by_cases ha : allowed_file (sanitize f.filename) = false
      · have hp : (if f.filename = "" then false
            else allowed_file (sanitize f.filename)) = false := by simp [h0, ha]
        rw [if_neg h0, if_pos ha, hp]
        simp only [Bool.false_eq_true, if_false]
        rw [ih]
      · have ha' : allowed_file (sanitize f.filename) = true :=
          Bool.not_eq_false _ ▸ ha
        have hp : (if f.filename = "" then false
            else allowed_file (sanitize f.filename)) = true := by simp [h0, ha']
        rw [if_neg h0, if_neg ha, hp]
        simp only [if_true, List.foldl_cons]
        rw [ih]
        simp

/-- C6: `allowed_file` accepts exactly the non-empty filenames whose
lower-cased `splitext` extension is `.png`, `.jpg` or `.jpeg`; and
`save_files` stores exactly the uploads whose sanitized filename passes that
test (in order, at `target_dir/<sanitized name>`), silently ignoring the
others — its result is the fold of the passing sublist, with the
`saved_any` flag true exactly when that sublist is non-empty. -/
theorem allowed_file_and_save_files_spec (sanitize : String → String)
    (files : List Upload) (target_dir : String) (fs : FS) :
    (∀ fn : String, allowed_file fn = true ↔
      (fn ≠ "" ∧ lowerStr (splitextExt fn) ∈ ALLOWED_EXTENSIONS)) ∧
    save_files sanitize files target_dir fs =
      ((files.filter fun f => if f.filename = "" then false
          else allowed_file (sanitize f.filename)).foldl
        (fun a f => a.save (target_dir ++ "/" ++ sanitize f.filename) f.content) fs,
       !(files.filter fun f => if f.filename = "" then false
          else allowed_file (sanitize f.filename)).isEmpty) := by
  constructor
  · intro fn
    unfold allowed_file
    by_cases h : fn = ""
    · simp [h]
    · simp [h, List.contains, List.elem_iff]
  · unfold save_files
    rw [save_files_loop_eq]
    simp

/-! ## C5: the hex branch -/

theorem hexVal?_toNat_bounds {c : Char} {v : Nat} (h : hexVal? c = some v) :
    (48 ≤ c.toNat ∧ c.toNat ≤ 57) ∨ (97 ≤ c.toNat ∧ c.toNat ≤ 102) ∨
    (65 ≤ c.toNat ∧ c.toNat ≤ 70) := by
  unfold hexVal? at h
  split at h
  · left; assumption
  · split at h
    · right; left; assumption
    · split at h
      · right; right; assumption
      · exact absurd h (by simp)

/-- A hexadecimal digit is not whitespace, a sign, an `x`/`X` or an
underscore. -/
theorem hexVal?_not_special {c : Char} {v : Nat} (h : hexVal? c = some v) :
    pyIsSpace c = false ∧ ¬ (c = '+') ∧ ¬ (c = '-') ∧ ¬ (c = 'x') ∧
      ¬ (c = 'X') ∧ ¬ (c = '_') := by
  have hb := hexVal?_toNat_bounds h
  refine ⟨?_, ?_, ?_, ?_, ?_, ?_⟩
  · simp only [pyIsSpace, Bool.or_eq_false_iff, decide_eq_false_iff_not]
    rcases hb with h' | h' | h' <;> omega
  · rintro rfl; rcases hb with h' | h' | h' <;> revert h' <;> decide
  · rintro rfl; rcases hb with h' | h' | h' <;> revert h' <;> decide
  · rintro rfl; rcases hb with h' | h' | h' <;> revert h' <;> decide
  · rintro rfl; rcases hb with h' | h' | h' <;> revert h' <;> decide
  · rintro rfl; rcases hb with h' | h' | h' <;> revert h' <;> decide

/-- `int(·, 16)` on a string of exactly two hexadecimal digits yields the
usual place value. -/
theorem pyIntHex_two_digits {c d : Char} {v w : Nat}
    (hc : hexVal? c = some v) (hd : hexVal? d = some w) :
    pyIntHex (String.mk [c, d]) = some ((16 * v + w : Nat) : Int) := by
  obtain ⟨hcs, hcp, hcm, _, _, _⟩ := hexVal?_not_special hc
  obtain ⟨hds, _, _, hdx, hdX, hdu⟩ := hexVal?_not_special hd
  have hstrip : pyStripChars [c, d] = [c, d] := by
    simp [pyStripChars, List.dropWhile, hcs, hds]
  unfold pyIntHex
  simp only [show (String.mk [c, d]).data = [c, d] from rfl, hstrip]
  simp [hcm, hcp, hdx, hdX, hdu, digitsRun, hc, hd, digitsLoop]

/-- C5 counterexample: `"##ffff00"` has two leading `'#'`; after removing a
single optional leading `'#'` it is not a 6-hex-digit string, so by the
claim `parse_color` should raise — but the code's `lstrip("#")` removes both
marks and the parse succeeds. -/
theorem parse_color_hex_counterexample :
    specHexValid "##ffff00" = false ∧
    parse_color ⟨some "##ffff00", none, none, none⟩ = Except.ok (255, 255, 0) :=
  ⟨by decide, rfl⟩

/-- Evaluation of one `int(hex_color[i:i+2], 16)` slice when it consists of
two hexadecimal digits. -/
theorem hexPairField_eval {l : List Char} {i : Nat} {c d : Char} {v w : Nat}
    (hslice : (l.drop i).take 2 = [c, d])
    (hc : hexVal? c = some v) (hd : hexVal? d = some w) :
    hexPairField l i = Except.ok ((16 * v + w : Nat) : Int) := by
  unfold hexPairField slice2
  rw [hslice, pyIntHex_two_digits hc hd]

/-- C5 (amended): for every form whose hex field is non-empty after
stripping, `parse_color` removes all leading `'#'` characters (not just an
optional single one); it raises when the remainder is not exactly 6
characters long; a length-6 remainder succeeds exactly when each of its
three 2-character slices is accepted by Python's `int(·, 16)` (which also
admits signed or whitespace-padded pairs); and when the remainder consists
of six hexadecimal digits it returns the triple decoded from the three
successive pairs. -/
theorem parse_color_hex_spec (form : FormData)
    (hne : pyStripChars (form.hex_color.getD "").data ≠ []) :
    (((pyStripChars (form.hex_color.getD "").data).dropWhile
        (fun c => c = '#')).length ≠ 6 →
      parse_color form = Except.error "Hex color must have 6 characters.") ∧
    (((pyStripChars (form.hex_color.getD "").data).dropWhile
        (fun c => c = '#')).length = 6 →
      ((∃ t : Int × Int × Int, parse_color form = Except.ok t) ↔
        ((pyIntHex (slice2 ((pyStripChars (form.hex_color.getD "").data).dropWhile
            (fun c => c = '#')) 0)).isSome ∧
         (pyIntHex (slice2 ((pyStripChars (form.hex_color.getD "").data).dropWhile
            (fun c => c = '#')) 2)).isSome ∧
         (pyIntHex (slice2 ((pyStripChars (form.hex_color.getD "").data).dropWhile
            (fun c => c = '#')) 4)).isSome))) ∧
    (∀ c₁ c₂ c₃ c₄ c₅ c₆ : Char, ∀ v₁ v₂ v₃ v₄ v₅ v₆ : Nat,
      (pyStripChars (form.hex_color.getD "").data).dropWhile
        (fun c => c = '#') = [c₁, c₂, c₃, c₄, c₅, c₆] →
      hexVal? c₁ = some v₁ → hexVal? c₂ = some v₂ → hexVal? c₃ = some v₃ →
      hexVal? c₄ = some v₄ → hexVal? c₅ = some v₅ → hexVal? c₆ = some v₆ →
      parse_color form = Except.ok (((16 * v₁ + v₂ : Nat) : Int),
        ((16 * v₃ + v₄ : Nat) : Int), ((16 * v₅ + v₆ : Nat) : Int))) := by
  have hpc : parse_color form =
      parse_hex (pyStripChars (form.hex_color.getD "").data) := by
    unfold parse_color
    rw [if_pos hne]
  refine ⟨?_, ?_, ?_⟩
  · intro hlen
    rw [hpc]
    unfold parse_hex
    rw [if_pos hlen]
  · intro hlen
    rw [hpc]
    unfold parse_hex
    rw [if_neg (by simp [hlen])]
    simp only [hexPairField]
    cases h0 : pyIntHex (slice2 ((pyStripChars (form.hex_color.getD "").data).dropWhile
        (fun c => c = '#')) 0) <;>
      cases h2 : pyIntHex (slice2 ((pyStripChars (form.hex_color.getD "").data).dropWhile
        (fun c => c = '#')) 2) <;>
      cases h4 : pyIntHex (slice2 ((pyStripChars (form.hex_color.getD "").data).dropWhile
        (fun c => c = '#')) 4) <;>
      simp [h0, h2, h4]
  · intro c₁ c₂ c₃ c₄ c₅ c₆ v₁ v₂ v₃ v₄ v₅ v₆ heq h1 h2 h3 h4 h5 h6
    rw [hpc]
    unfold parse_hex
    rw [heq]
    rw [if_neg (by simp)]
    rw [hexPairField_eval
          (show (([c₁, c₂, c₃, c₄, c₅, c₆] : List Char).drop 0).take 2 = [c₁, c₂] from rfl)
          h1 h2,
        hexPairField_eval
          (show (([c₁, c₂, c₃, c₄, c₅, c₆] : List Char).drop 2).take 2 = [c₃, c₄] from rfl)
          h3 h4,
        hexPairField_eval
          (show (([c₁, c₂, c₃, c₄, c₅, c₆] : List Char).drop 4).take 2 = [c₅, c₆] from rfl)
          h5 h6]

/-- Witness for the amended C5 at a concrete all-hex form. -/
theorem parse_color_hex_spec_witness :
    parse_color ⟨some "a1b2c3", none, none, none⟩ =
      Except.ok (((16 * 10 + 1 : Nat) : Int), ((16 * 11 + 2 : Nat) : Int),
        ((16 * 12 + 3 : Nat) : Int)) :=
  (parse_color_hex_spec ⟨some "a1b2c3", none, none, none⟩ (by decide)).2.2
    'a' '1' 'b' '2' 'c' '3' 10 1 11 2 12 3 (by decide) (by decide) (by decide)
    (by decide) (by decide) (by decide) (by decide)

/-! ## Concrete handler instances used by the witnesses -/

def formW : FormData := ⟨some "#ff0000", none, none, none⟩

def detectPW : String → Int × Int × Int → DetectResult :=
  fun _ _ => ⟨some (1, 2, 3, 4), 5, 7, 0⟩

/-- A compositor batch that writes one output image. -/
def cmW : String → String → List (String × Params) → String → FS → FS :=
  fun _ _ _ output_dir fs => fs.save (output_dir ++ "/" ++ "d.png") "O"

def fsW : FS := ⟨[], []⟩

def designsW : List Upload := [⟨"d.png", "D"⟩]

def mockupsW : List Upload := [⟨"m.png", "M"⟩]

def boxesW : List Upload := [⟨"b.png", "B"⟩]

def sanW : String → String := fun s => s

/-! ## C8 -/

/-- C8: when `parse_color` raises, the POST handler returns a 400 page with
that message and — since the color is parsed before any directory is created
or file saved — the filesystem it returns is exactly the one it started
with. -/
theorem index_post_rejects_bad_color (form : FormData)
    (design_files mockup_files box_files : List Upload)
    (sanitize : String → String) (job_id : String)
    (calculate_parameters : String → Int × Int × Int → DetectResult)
    (create_mockups : String → String → List (String × Params) → String → FS → FS)
    (fs : FS) (e : String)
    (h : parse_color form = Except.error e) :
    index_post form design_files mockup_files box_files sanitize job_id
      calculate_parameters create_mockups fs = (errorResp e, fs) := by
  unfold index_post
  rw [h]

/-- Witness for C8: a malformed hex field rejected with the filesystem
untouched. -/
theorem index_post_rejects_bad_color_witness :
    index_post ⟨some "zz", none, none, none⟩ designsW mockupsW boxesW sanW "j"
      detectPW cmW fsW = (errorResp "Hex color must have 6 characters.", fsW) :=
  index_post_rejects_bad_color ⟨some "zz", none, none, none⟩ designsW mockupsW
    boxesW sanW "j" detectPW cmW fsW "Hex color must have 6 characters." rfl

/-! ## C3 -/

/-- C3: once the request reaches `create_mockups` (color parsed, all three
upload groups present and saved, at least one box detected), the handler
reports the "no output images" request-level error exactly when the job's
output directory holds no file with an allowed image extension; when at
least one such file exists it returns the success page listing exactly that
subset (a permutation of it, since the page sorts the names). -/
theorem index_post_no_outputs_iff_all_failed (form : FormData)
    (design_files mockup_files box_files : List Upload)
    (sanitize : String → String) (job_id : String)
    (calculate_parameters : String → Int × Int × Int → DetectResult)
    (create_mockups : String → String → List (String × Params) → String → FS → FS)
    (fs : FS) (c : Int × Int × Int)
    (hc : parse_color form = Except.ok c)
    (hb : box_files ≠ []) (hm : mockup_files ≠ []) (hd : design_files ≠ [])
    (hsd : (fsSetup sanitize design_files mockup_files box_files job_id fs).2.1 = true)
    (hsm : (fsSetup sanitize design_files mockup_files box_files job_id fs).2.2.1 = true)
    (hsb : (fsSetup sanitize design_files mockup_files box_files job_id fs).2.2.2 = true)
    (hp : handlerParams sanitize design_files mockup_files box_files job_id
        calculate_parameters c fs ≠ []) :
    (handlerOutputsOnDisk sanitize design_files mockup_files box_files job_id
        calculate_parameters create_mockups c fs = [] →
      index_post form design_files mockup_files box_files sanitize job_id
          calculate_parameters create_mockups fs =
        (errorResp NO_OUTPUTS_ERR,
         handlerFsAfterCore sanitize design_files mockup_files box_files job_id
           calculate_parameters create_mockups c fs)) ∧
    (handlerOutputsOnDisk sanitize design_files mockup_files box_files job_id
        calculate_parameters create_mockups c fs ≠ [] →
      ∃ outs : List String,
        index_post form design_files mockup_files box_files sanitize job_id
            calculate_parameters create_mockups fs =
          (⟨⟨none, some outs, some job_id⟩, 200⟩,
           handlerFsAfterCore sanitize design_files mockup_files box_files job_id
             calculate_parameters create_mockups c fs) ∧
        outs.Perm (handlerOutputsOnDisk sanitize design_files mockup_files
          box_files job_id calculate_parameters create_mockups c fs)) := by
  have key : index_post form design_files mockup_files box_files sanitize job_id
      calculate_parameters create_mockups fs =
      if (List.insertionSort lowerLe
          (handlerOutputsOnDisk sanitize design_files mockup_files box_files
            job_id calculate_parameters create_mockups c fs)).isEmpty then
        (errorResp NO_OUTPUTS_ERR,
         handlerFsAfterCore sanitize design_files mockup_files box_files job_id
           calculate_parameters create_mockups c fs)
      else
        (⟨⟨none,
           some (List.insertionSort lowerLe
             (handlerOutputsOnDisk sanitize design_files mockup_files box_files
               job_id calculate_parameters create_mockups c fs)),
           some job_id⟩, 200⟩,
         handlerFsAfterCore sanitize design_files mockup_files box_files job_id
           calculate_parameters create_mockups c fs) := by
    unfold index_post
    rw [hc]
    dsimp only
    have hbe : (box_files.isEmpty || mockup_files.isEmpty ||
        design_files.isEmpty) = false := by
      simp [List.isEmpty_iff, hb, hm, hd]
    rw [if_neg (show ¬ ((box_files.isEmpty || mockup_files.isEmpty ||
        design_files.isEmpty) = true) from by simp [hbe])]
    rw [if_neg (show ¬ (((fsSetup sanitize design_files mockup_files box_files job_id fs).2.1 &&
        (fsSetup sanitize design_files mockup_files box_files job_id fs).2.2.1 &&
        (fsSetup sanitize design_files mockup_files box_files job_id fs).2.2.2) = false) from by
      simp [hsd, hsm, hsb])]
    rw [if_neg (show ¬ ((handlerParams sanitize design_files mockup_files box_files
        job_id calculate_parameters c fs).isEmpty = true) from by
      simp [List.isEmpty_iff, hp])]
  constructor
  · intro houts
    rw [key, if_pos (by simp [houts, List.insertionSort])]
  · intro houts
    have hperm := List.perm_insertionSort lowerLe
      (handlerOutputsOnDisk sanitize design_files mockup_files box_files job_id
        calculate_parameters create_mockups c fs)
    have hne : ¬ (List.insertionSort lowerLe
        (handlerOutputsOnDisk sanitize design_files mockup_files box_files job_id
          calculate_parameters create_mockups c fs)).isEmpty = true := by
      intro hempty
      rw [List.isEmpty_iff] at hempty
      exact houts ((hempty ▸ hperm).symm.eq_nil)
    rw [key, if_neg hne]
    exact ⟨_, rfl, hperm⟩

set_option maxRecDepth 10000 in
/-- Witness for C3 at a concrete run in which one output image is
produced. -/
theorem index_post_no_outputs_iff_all_failed_witness :
    ∃ outs : List String,
      index_post formW designsW mockupsW boxesW sanW "j" detectPW cmW fsW =
        (⟨⟨none, some outs, some "j"⟩, 200⟩,
         handlerFsAfterCore sanW designsW mockupsW boxesW "j" detectPW cmW
           (255, 0, 0) fsW) ∧
      outs.Perm (handlerOutputsOnDisk sanW designsW mockupsW boxesW "j" detectPW
        cmW (255, 0, 0) fsW) :=
  (index_post_no_outputs_iff_all_failed formW designsW mockupsW boxesW sanW "j"
    detectPW cmW fsW (255, 0, 0) rfl (by decide) (by decide) (by decide)
    (by decide) (by decide) (by decide) (by decide)).2 (by decide)

/-! ## C10 -/

/-- C10: whenever the handler returns a page listing outputs (the success
page), those outputs are exactly the filenames in the job's output directory
of the returned filesystem state that pass the image allow-list — as a
multiset (`Perm`) — arranged in case-insensitive lexicographic order
(sorted by the lower-cased name). -/
theorem index_post_success_outputs_sorted (form : FormData)
    (design_files mockup_files box_files : List Upload)
    (sanitize : String → String) (job_id : String)
    (calculate_parameters : String → Int × Int × Int → DetectResult)
    (create_mockups : String → String → List (String × Params) → String → FS → FS)
    (fs : FS) (outs : List String) (st : Nat) (fsF : FS)
    (h : index_post form design_files mockup_files box_files sanitize job_id
        calculate_parameters create_mockups fs =
      (⟨⟨none, some outs, some job_id⟩, st⟩, fsF)) :
    outs.Perm ((fsF.listdir (outputDirOf job_id)).filter (fun n => allowed_file n)) ∧
    List.Sorted lowerLe outs := by
  unfold index_post at h
  cases hpc : parse_color form with
  | error e =>
    rw [hpc] at h
    dsimp only at h
    exact absurd h (by simp [errorResp])
  | ok c =>
    rw [hpc] at h
    dsimp only at h
    split at h
    · exact absurd h (by simp [errorResp])
    · split at h
      · exact absurd h (by simp [errorResp])
      · split at h
        · exact absurd h (by simp [errorResp])
        · split at h
          · exact absurd h (by simp [errorResp])
          · simp only [Prod.mk.injEq, Resp.mk.injEq, Rendered.mk.injEq,
              Option.some.injEq, true_and] at h
            obtain ⟨⟨⟨houts, -⟩, -⟩, hfs⟩ := h
            subst houts
            subst hfs
            exact ⟨List.perm_insertionSort lowerLe _,
                   List.sorted_insertionSort lowerLe _⟩

set_option maxRecDepth 10000 in
/-- Witness for C10 at the same concrete successful run. -/
theorem index_post_success_outputs_sorted_witness :
    List.Perm ["d.png"]
      (((index_post formW designsW mockupsW boxesW sanW "j" detectPW cmW fsW).2.listdir
        (outputDirOf "j")).filter (fun n => allowed_file n)) ∧
    List.Sorted lowerLe ["d.png"] :=
  index_post_success_outputs_sorted formW designsW mockupsW boxesW sanW "j"
    detectPW cmW fsW ["d.png"] 200
    (index_post formW designsW mockupsW boxesW sanW "j" detectPW cmW fsW).2
    (by decide)
